import Mathlib

/-!
Verification of the paylens payment-SDK core: a shallow embedding of the
Peach gateway adapter (`src/gateways/peach/client.ts`, `types.ts`), the
retrying HTTP transport (`src/utils/http.ts`), the base gateway class
(`src/gateways/base.ts`) and the orchestrator (`src/client.ts`),
with theorems settling the specification's testable properties.

Modelling conventions:
- TypeScript optional fields (`x?: T`) become `Option T`; JavaScript string
  falsiness (`!s` true for the empty string) is modelled explicitly where the
  source relies on it.
- Monetary values are constrained by the external schema to positive multiples
  of 0.01, so `Amount.value` is modelled as an integer count of cents;
  `Number.toFixed(2)` becomes `toFixed2` on cents.
- Asynchronous methods returning promises become pure functions returning
  `Except`; thrown errors become `Except.error` carrying a `PLError`.
- Enum values are the literal strings the TypeScript enums define
  (for example `PaymentMethod.CARD = "card"`).
-/

/-- Canonical payment status enum (`PaymentStatus` in `src/types/common.ts`). -/
inductive PaymentStatus where
  | pending
  | processing
  | completed
  | failed
  | cancelled
  | refunded
  | partiallyRefunded
deriving Repr, DecidableEq

/-- `PEACH_STATUS_CODES.SUCCESS_CODES` from `src/gateways/peach/types.ts`. -/
def PEACH_STATUS_CODES.SUCCESS_CODES : List String :=
  ["000.000.000", "000.000.100", "000.100.110", "000.100.111", "000.100.112"]

/-- `PEACH_STATUS_CODES.PENDING_CODES` from `src/gateways/peach/types.ts`. -/
def PEACH_STATUS_CODES.PENDING_CODES : List String :=
  ["000.200.000", "800.400.500", "900.100.300"]

/-- `PEACH_STATUS_CODES.REJECTED_CODES` from `src/gateways/peach/types.ts`. -/
def PEACH_STATUS_CODES.REJECTED_CODES : List String :=
  ["000.400.000", "000.400.010", "000.400.020", "000.400.030", "000.400.040",
   "000.400.050", "000.400.060", "000.400.070", "000.400.080", "000.400.090",
   "000.400.100"]

/-- `PEACH_STATUS_CODES.ERROR_CODES` from `src/gateways/peach/types.ts`. -/
def PEACH_STATUS_CODES.ERROR_CODES : List String :=
  ["200.300.404", "800.300.401", "900.400.500"]

/-- `PeachPaymentsGateway.mapPaymentStatus`: classify a gateway result code
into a canonical status by testing the four code buckets in order, defaulting
to `pending` for unknown codes. -/
def mapPaymentStatus (gatewayStatus : String) : PaymentStatus :=
  if gatewayStatus ∈ PEACH_STATUS_CODES.SUCCESS_CODES then
    PaymentStatus.completed
  else if gatewayStatus ∈ PEACH_STATUS_CODES.PENDING_CODES then
    PaymentStatus.processing
  else if gatewayStatus ∈ PEACH_STATUS_CODES.REJECTED_CODES then
    PaymentStatus.failed
  else if gatewayStatus ∈ PEACH_STATUS_CODES.ERROR_CODES then
    PaymentStatus.failed
  else
    PaymentStatus.pending

/-! ## Transport (`src/utils/http.ts`) -/

/-- A failure thrown by one transport attempt. The axios response interceptor
normalizes every transport failure into a `NetworkError` whose `statusCode` is
the HTTP status when a response was obtained and absent otherwise; any other
thrown value is `other`. -/
inductive TransportError where
  | network (statusCode : Option Nat)
  | other
deriving Repr, DecidableEq

/-- `HttpClient.shouldRetry`: retry only `NetworkError`s where
`!error.statusCode || error.statusCode >= 500`. `!error.statusCode` tests for
an absent status (HTTP statuses obtained from a response are never the falsy
number 0, so JavaScript zero-falsiness never distinguishes). -/
def shouldRetry : TransportError → Bool
  | TransportError.network none => true
  | TransportError.network (some s) => decide (500 ≤ s)
  | TransportError.other => false

/-- `HttpClient.calculateRetryDelay`: exponential backoff
`min(1000 * 2^(attempt-1), 10000)` milliseconds. -/
def calculateRetryDelay (attempt : Nat) : Nat :=
  min (1000 * 2 ^ (attempt - 1)) 10000

/-- `HttpClient.executeWithRetry`. The per-attempt operation is modelled as a
function from the attempt number to that attempt's outcome. The result pairs
the final outcome with the list of backoff delays performed (each delay the
source awaits in `sleep` before recursing). -/
def executeWithRetry {α : Type} (retries : Nat) (op : Nat → Except TransportError α)
    (attempt : Nat) : Except TransportError α × List Nat :=
  match op attempt with
  | Except.ok v => (Except.ok v, [])
  | Except.error e =>
    if h : attempt < retries ∧ shouldRetry e = true then
      let r := executeWithRetry retries op (attempt + 1)
      (r.1, calculateRetryDelay attempt :: r.2)
    else
      (Except.error e, [])
termination_by retries - attempt
decreasing_by simp_wf; omega

/-- The retry scenario from the spec: the operation fails with HTTP 500 on the
first two attempts and succeeds (producing 42) on the third. -/
def retryScenarioOp : Nat → Except TransportError Nat := fun n =>
  if n ≤ 2 then Except.error (TransportError.network (some 500)) else Except.ok 42

/-! ## Error taxonomy (`src/errors.ts`), reduced to the constructors and
fields the core consumes: the error class and, for `ConfigurationError`, its
`parameter` field naming the failing slot. -/

/-- Domain errors thrown by the core (`ValidationError`, `ConfigurationError`,
`PaymentError`, `RefundError`, `NetworkError` in `src/errors.ts`); each
carries its `message`, and `configuration` additionally its `parameter`. -/
inductive PLError where
  | validation (message : String)
  | configuration (message : String) (parameter : Option String)
  | paymentE (message : String)
  | refundE (message : String)
  | networkE (message : String) (statusCode : Option Nat)
deriving Repr, DecidableEq

/-- `error.message` of a domain error. -/
def PLError.message : PLError → String
  | PLError.validation m => m
  | PLError.configuration m _ => m
  | PLError.paymentE m => m
  | PLError.refundE m => m
  | PLError.networkE m _ => m

/-! ## Peach configuration (`src/gateways/peach/types.ts`) -/

/-- JavaScript truthiness of an optional string: absent and empty are falsy. -/
def strTruthy : Option String → Bool
  | none => false
  | some s => s ≠ ""

/-- `PeachPaymentsConfig`. The `environment` field is a runtime string (the
`PeachEnvironment` enum values are `"sandbox"` and `"production"`); it is
`Option` because legacy configs omit it and the source tests `!config.environment`. -/
structure PeachPaymentsConfig where
  entityId : String
  username : String
  password : String
  environment : Option String
  timeout : Option Nat
  retries : Option Nat
  apiUrl : Option String
  sandbox : Option Bool
deriving Repr, DecidableEq

/-- `z.nativeEnum(PeachEnvironment)`: the value must be one of the two enum
strings (an absent value fails the parse). -/
def envInEnum : Option String → Bool
  | some s => s == "sandbox" || s == "production"
  | none => false

/-- Apply a check to an optional field; `zod`'s `.optional()` accepts absence. -/
def optCheck {α : Type} (f : α → Bool) : Option α → Bool
  | none => true
  | some a => f a

/-- Approximation of `z.string().url()`: the exact accepted language is a zod
library detail; no claim settled here depends on strings where this differs
(theorems either leave `apiUrl` absent or hold for every string). -/
def isUrlLike (s : String) : Bool :=
  s.startsWith "http://" || s.startsWith "https://"

/-- `PeachPaymentsConfigSchema.safeParse` success: non-empty `entityId`,
`username`, `password`; `environment` in the enum; positive optional
`timeout`/`retries`; optional url-shaped `apiUrl`; optional boolean `sandbox`
(any `Option Bool` passes). -/
def PeachPaymentsConfigSchemaOk (c : PeachPaymentsConfig) : Bool :=
  decide (1 ≤ c.entityId.length) && decide (1 ≤ c.username.length) &&
  decide (1 ≤ c.password.length) && envInEnum c.environment &&
  optCheck (fun t => decide (0 < t)) c.timeout &&
  optCheck (fun r => decide (0 < r)) c.retries &&
  optCheck isUrlLike c.apiUrl

/-- `PEACH_API_URLS` keyed by environment string; a key outside the enum has
no entry (JavaScript indexing would produce `undefined`). -/
def PEACH_API_URLS (env : String) : Option String :=
  if env = "sandbox" then some "https://testapi-v2.peachpayments.com"
  else if env = "production" then some "https://api-v2.peachpayments.com"
  else none

/-- `PeachPaymentsGateway.normalizeConfig`: when the legacy fields are present
(`apiUrl` truthy, `sandbox` defined) and `environment` is falsy, derive
`environment` from the `sandbox` flag. The source also emits a `console.warn`
deprecation notice, a side effect not modelled. -/
def PeachPaymentsGateway.normalizeConfig (config : PeachPaymentsConfig) : PeachPaymentsConfig :=
  if strTruthy config.apiUrl && config.sandbox.isSome && !(strTruthy config.environment) then
    { config with environment := some (if config.sandbox == some true then "sandbox" else "production") }
  else
    config

/-- `PeachPaymentsGateway.getApiUrlForConfig`: an explicitly provided (legacy)
`apiUrl` wins; otherwise the environment table decides. A table miss yields
JavaScript `undefined`, modelled as `""`; it is unreachable after schema
validation. -/
def PeachPaymentsGateway.getApiUrlForConfig (config : PeachPaymentsConfig) : String :=
  if strTruthy config.apiUrl then config.apiUrl.getD ""
  else ((config.environment.bind PEACH_API_URLS).getD "")

/-- `PeachPaymentsGateway.createAuthHeader` builds the Basic-auth credential
from `username:password`; the `Buffer` base64 encoding is an injective
serialization not modelled (no claim inspects the encoded form). -/
def PeachPaymentsGateway.createAuthHeader (config : PeachPaymentsConfig) : String :=
  config.username ++ ":" ++ config.password

/-- `HttpClientConfig` captured at `new HttpClient(...)` in the adapter
constructor. -/
structure HttpClientConfigM where
  baseURL : String
  timeout : Option Nat
  retries : Option Nat
  authCredentials : String
deriving Repr, DecidableEq

/-- `PaymentGatewayConfig` passed to the `BasePaymentGateway` constructor. -/
structure PaymentGatewayConfig where
  apiUrl : String
  sandbox : Bool
  timeout : Option Nat
  retries : Option Nat
deriving Repr, DecidableEq

/-- The constructed `PeachPaymentsGateway` instance: class constants `name`
and `supportedMethods`, the normalized `peachConfig`, the base-class config,
and the single `HttpClient` it owns. -/
structure PeachGatewayM where
  name : String
  supportedMethods : List String
  peachConfig : PeachPaymentsConfig
  baseConfig : PaymentGatewayConfig
  httpClient : HttpClientConfigM
deriving Repr, DecidableEq

/-- The `PeachPaymentsGateway` constructor: normalize, validate (throwing
`ValidationError` on schema failure), resolve the endpoint, then build the
base config and the one `HttpClient`. The first component is the trace of
`HttpClient` instances constructed, so that "no Transport is constructed
before the throw" is an inspectable fact. zod's aggregated
`validationResult.error.message` is abstracted to a fixed issue summary. -/
def PeachPaymentsGateway.construct (config : PeachPaymentsConfig) :
    List HttpClientConfigM × Except PLError PeachGatewayM :=
  let normalizedConfig := PeachPaymentsGateway.normalizeConfig config
  if PeachPaymentsConfigSchemaOk normalizedConfig then
    let apiUrl := PeachPaymentsGateway.getApiUrlForConfig normalizedConfig
    let isSandbox := normalizedConfig.environment == some "sandbox"
    let baseConfig : PaymentGatewayConfig :=
      { apiUrl := apiUrl, sandbox := isSandbox,
        timeout := normalizedConfig.timeout, retries := normalizedConfig.retries }
    let httpClient : HttpClientConfigM :=
      { baseURL := apiUrl, timeout := normalizedConfig.timeout,
        retries := normalizedConfig.retries,
        authCredentials := PeachPaymentsGateway.createAuthHeader normalizedConfig }
    ([httpClient],
     Except.ok
       { name := "PeachPayments",
         supportedMethods := ["card", "eft", "mobile_wallet"],
         peachConfig := normalizedConfig,
         baseConfig := baseConfig,
         httpClient := httpClient })
  else
    ([], Except.error (PLError.validation
      "Invalid Peach Payments configuration: schema validation failed"))

/-! ## Canonical domain model (`src/types/common.ts`) -/

/-- `Currency` enum values. -/
def currencyValues : List String := ["ZAR", "USD", "EUR", "GBP"]

/-- `PaymentMethod` enum values. -/
def paymentMethodValues : List String :=
  ["card", "eft", "mobile_wallet", "bank_transfer", "cryptocurrency"]

/-- Canonical `Amount`. `value` is the number of cents (the schema constrains
the source's `value: number` to a positive multiple of 0.01); `currency` is a
string because gateway status responses cast a wire string into this field. -/
structure Amount where
  value : Nat
  currency : String
deriving Repr, DecidableEq

/-- Canonical `Customer`. -/
structure Customer where
  id : Option String
  email : String
  firstName : Option String
  lastName : Option String
  phone : Option String
deriving Repr, DecidableEq

/-- Canonical `BillingAddress`. -/
structure BillingAddress where
  line1 : String
  line2 : Option String
  city : String
  state : Option String
  postalCode : String
  country : String
deriving Repr, DecidableEq

/-- Canonical `CardDetails`. -/
structure CardDetails where
  number : String
  expiryMonth : String
  expiryYear : String
  cvv : String
  holderName : Option String
deriving Repr, DecidableEq

/-- Canonical `PaymentRequest`. `metadata` is an opaque record modelled as a
key-value list (the core never inspects it). -/
structure PaymentRequest where
  amount : Amount
  customer : Customer
  paymentMethod : String
  reference : Option String
  description : Option String
  metadata : Option (List (String × String))
  billingAddress : Option BillingAddress
  cardDetails : Option CardDetails
  returnUrl : Option String
  webhookUrl : Option String
deriving Repr, DecidableEq

/-- The `metadata` object the adapter attaches to every canonical response:
`{ gatewayResponse, resultCode, resultDescription }`. The raw gateway response
passthrough is carried by the enclosing response value itself; the two scalar
fields are modelled. -/
structure ResponseMetadata where
  resultCode : String
  resultDescription : String
deriving Repr, DecidableEq

/-- Canonical `PaymentResponse`. `createdAt` (`new Date(timestamp)`) is
modelled by the source timestamp string. -/
structure PaymentResponse where
  id : String
  status : PaymentStatus
  amount : Amount
  paymentMethod : String
  reference : Option String
  gatewayReference : Option String
  createdAt : String
  metadata : Option ResponseMetadata
  redirectUrl : Option String
  failureReason : Option String
deriving Repr, DecidableEq

/-- Canonical `RefundRequest`; an absent `amount` means "full refund". -/
structure RefundRequest where
  paymentId : String
  amount : Option Amount
  reason : Option String
  reference : Option String
deriving Repr, DecidableEq

/-- Canonical `RefundResponse`. -/
structure RefundResponse where
  id : String
  paymentId : String
  status : PaymentStatus
  amount : Amount
  reason : Option String
  reference : Option String
  gatewayReference : Option String
  createdAt : String
  metadata : Option ResponseMetadata
deriving Repr, DecidableEq

/-- Split a character list at every occurrence of a separator (the behaviour
of `String.splitOn` with a one-character separator, restated structurally). -/
def splitOnChar (c : Char) : List Char → List (List Char)
  | [] => [[]]
  | x :: xs =>
    let r := splitOnChar c xs
    if x == c then [] :: r
    else
      match r with
      | h :: t => (x :: h) :: t
      | [] => [[x]]

/-- Approximation of `z.string().email()`: one `@` separating two non-empty
parts; the exact accepted language is a zod library detail and no claim
depends on strings where this differs. -/
def emailLike (s : String) : Bool :=
  match splitOnChar (Char.ofNat 64) s.data with
  | [l, d] => !l.isEmpty && !d.isEmpty
  | _ => false

/-- All characters are decimal digits and the string is non-empty. -/
def allDigits (s : String) : Bool :=
  s.length != 0 && s.data.all Char.isDigit

/-- The strings matched by zod's expiry-month pattern `^(0[1-9]|1[0-2])$`. -/
def expiryMonthValues : List String :=
  ["01", "02", "03", "04", "05", "06", "07", "08", "09", "10", "11", "12"]

/-- `AmountObjectSchema`: positive value, currency in the enum (the multiple-
of-0.01 constraint is inherent to the cents representation). -/
def amountObjectOk (a : Amount) : Bool :=
  decide (0 < a.value) && currencyValues.contains a.currency

/-- `CustomerSchema`: only the email is constrained. -/
def customerOk (c : Customer) : Bool :=
  emailLike c.email

/-- `BillingAddressSchema`. -/
def billingAddressOk (b : BillingAddress) : Bool :=
  decide (1 ≤ b.line1.length) && decide (1 ≤ b.city.length) &&
  decide (1 ≤ b.postalCode.length) && b.country.length == 2

/-- `CardDetailsSchema` (regex checks expressed over digit strings). -/
def cardDetailsOk (cd : CardDetails) : Bool :=
  (decide (13 ≤ cd.number.length) && decide (cd.number.length ≤ 19) && allDigits cd.number) &&
  expiryMonthValues.contains cd.expiryMonth &&
  (cd.expiryYear.length == 2 && allDigits cd.expiryYear) &&
  ((cd.cvv.length == 3 || cd.cvv.length == 4) && allDigits cd.cvv)

/-- `PaymentRequestSchema.safeParse` success. -/
def paymentRequestSchemaOk (r : PaymentRequest) : Bool :=
  amountObjectOk r.amount && customerOk r.customer &&
  paymentMethodValues.contains r.paymentMethod &&
  optCheck billingAddressOk r.billingAddress &&
  optCheck cardDetailsOk r.cardDetails &&
  optCheck isUrlLike r.returnUrl && optCheck isUrlLike r.webhookUrl

/-- `RefundRequestSchema.safeParse` success. -/
def refundRequestSchemaOk (r : RefundRequest) : Bool :=
  decide (1 ≤ r.paymentId.length) && optCheck amountObjectOk r.amount

/-! ## Peach wire model and mappers (`src/gateways/peach/client.ts`) -/

/-- `Number.toFixed(2)` on a cents value: integer part, a dot, exactly two
fraction digits. -/
def toFixed2 (cents : Nat) : String :=
  toString (cents / 100) ++ "." ++
    (if cents % 100 < 10 then "0" ++ toString (cents % 100) else toString (cents % 100))

/-- Value of a decimal-digit string. -/
def digitsToNat (l : List Char) : Nat :=
  l.foldl (fun n c => n * 10 + (c.toNat - 48)) 0

/-- Cents denoted by the fraction digits of a decimal string (first two
digits, missing digits count as zero). -/
def fracCents : List Char → Nat
  | [] => 0
  | [a] => (a.toNat - 48) * 10
  | a :: b :: _ => (a.toNat - 48) * 10 + (b.toNat - 48)

/-- `parseFloat` on a wire amount string, in cents. Defined on the well-formed
`digits.digits` strings the gateway emits; `NaN` outcomes on malformed input
collapse to 0 (no claim depends on this value). -/
def parseFloatCents (s : String) : Nat :=
  match splitOnChar (Char.ofNat 46) s.data with
  | [i] => digitsToNat i * 100
  | i :: f :: _ => digitsToNat i * 100 + fracCents f
  | [] => 0

/-- Wire `result` object. -/
structure PeachResult where
  code : String
  description : String
deriving Repr, DecidableEq

/-- Wire `PeachPaymentResponse` (the optional `resultDetails`, `card` and
`risk` substructures are read nowhere in the source and are omitted). -/
structure PeachPaymentResponse where
  id : String
  paymentType : String
  paymentBrand : Option String
  amount : String
  currency : String
  result : PeachResult
  buildNumber : String
  timestamp : String
  ndc : String
  redirectUrl : Option String
deriving Repr, DecidableEq

/-- Wire `PeachStatusResponse` (unread optional substructures omitted). -/
structure PeachStatusResponse where
  id : String
  paymentType : String
  paymentBrand : Option String
  amount : String
  currency : String
  result : PeachResult
  buildNumber : String
  timestamp : String
  ndc : String
deriving Repr, DecidableEq

/-- Wire `PeachRefundResponse`. -/
structure PeachRefundResponse where
  id : String
  paymentType : String
  amount : String
  currency : String
  result : PeachResult
  buildNumber : String
  timestamp : String
  ndc : String
deriving Repr, DecidableEq

/-- Wire `customer` substructure of a payment request. -/
structure PeachCustomer where
  merchantCustomerId : Option String
  givenName : Option String
  surname : Option String
  email : Option String
  phone : Option String
deriving Repr, DecidableEq

/-- Wire `billing` substructure. -/
structure PeachBilling where
  street1 : String
  city : String
  state : Option String
  postcode : String
  country : String
deriving Repr, DecidableEq

/-- Wire `card` substructure. -/
structure PeachCard where
  number : String
  holder : String
  expiryMonth : String
  expiryYear : String
  cvv : String
deriving Repr, DecidableEq

/-- Wire `PeachPaymentRequest`. -/
structure PeachPaymentRequest where
  entityId : String
  amount : String
  currency : String
  paymentType : String
  testMode : Option String
  merchantTransactionId : Option String
  customer : Option PeachCustomer
  billing : Option PeachBilling
  card : Option PeachCard
  shopperResultUrl : Option String
  notificationUrl : Option String
deriving Repr, DecidableEq

/-- Wire `PeachRefundRequest`. -/
structure PeachRefundRequest where
  entityId : String
  amount : String
  currency : String
  paymentType : String
  testMode : Option String
deriving Repr, DecidableEq

/-- `PeachPaymentsGateway.getPaymentType`: canonical method to gateway
transaction-type code. -/
def getPaymentType (method : String) : String :=
  if method = "card" then "DB"
  else if method = "eft" then "DD"
  else if method = "mobile_wallet" then "DB"
  else "DB"

/-- Prefix test on character lists. -/
def isPrefixB : List Char → List Char → Bool
  | [], _ => true
  | _ :: _, [] => false
  | a :: as, b :: bs => a == b && isPrefixB as bs

/-- Substring (contiguous) test on character lists. -/
def isSubstrB (needle : List Char) : List Char → Bool
  | [] => isPrefixB needle []
  | c :: rest => isPrefixB needle (c :: rest) || isSubstrB needle rest

/-- JavaScript `hay.includes(needle)`. -/
def strIncludes (hay needle : String) : Bool :=
  isSubstrB needle.data hay.data

/-- `PeachPaymentsGateway.mapPaymentBrandToMethod`: case-insensitive substring
match of the gateway's payment-brand string; `!brand` (absent or empty) and
unmatched brands default to card. -/
def mapPaymentBrandToMethod (brand : Option String) : String :=
  match brand with
  | none => "card"
  | some b =>
    if b = "" then "card"
    else
      let brandLower := String.map Char.toLower b
      if strIncludes brandLower "visa" || strIncludes brandLower "mastercard" ||
         strIncludes brandLower "amex" || strIncludes brandLower "diners" then "card"
      else if strIncludes brandLower "eft" || strIncludes brandLower "bank" then "eft"
      else if strIncludes brandLower "paypal" || strIncludes brandLower "wallet" then "mobile_wallet"
      else "card"

/-- `PeachPaymentsGateway.mapToPaymentRequest`. `generateReference()` draws on
wall-clock time and randomness, so the generated reference is an input
(`genRef`); it is used only when `request.reference` is falsy. `testMode`
depends on the legacy `sandbox` flag of the adapter's config. The `customer`
field of a canonical request is required, so the wire `customer` block is
always present; `billing`/`card` blocks and the url fields are included only
when the canonical optionals are present (and, for the urls, truthy). -/
def mapToPaymentRequest (cfg : PeachPaymentsConfig) (genRef : String)
    (request : PaymentRequest) : PeachPaymentRequest :=
  { entityId := cfg.entityId,
    amount := toFixed2 request.amount.value,
    currency := request.amount.currency,
    paymentType := getPaymentType request.paymentMethod,
    testMode := if cfg.sandbox == some true then some "EXTERNAL" else none,
    merchantTransactionId :=
      some (match request.reference with
            | some r => if r = "" then genRef else r
            | none => genRef),
    customer :=
      some { merchantCustomerId := request.customer.id,
             givenName := request.customer.firstName,
             surname := request.customer.lastName,
             email := some request.customer.email,
             phone := request.customer.phone },
    billing := request.billingAddress.map (fun b =>
      { street1 := b.line1, city := b.city, state := b.state,
        postcode := b.postalCode, country := b.country }),
    card := request.cardDetails.map (fun cd =>
      { number := cd.number, holder := cd.holderName.getD "",
        expiryMonth := cd.expiryMonth, expiryYear := cd.expiryYear, cvv := cd.cvv }),
    shopperResultUrl := if strTruthy request.returnUrl then request.returnUrl else none,
    notificationUrl := if strTruthy request.webhookUrl then request.webhookUrl else none }

/-- `PeachPaymentsGateway.mapToPaymentResponse`: build the canonical response
from the gateway response and the original request; `amount`, `paymentMethod`
and `reference` are taken from the request, and `failureReason` is the
gateway's description exactly when the classified status is failed. -/
def mapToPaymentResponse (peachResponse : PeachPaymentResponse)
    (originalRequest : PaymentRequest) : PaymentResponse :=
  { id := peachResponse.id,
    status := mapPaymentStatus peachResponse.result.code,
    amount := originalRequest.amount,
    paymentMethod := originalRequest.paymentMethod,
    reference := originalRequest.reference,
    gatewayReference := some peachResponse.id,
    createdAt := peachResponse.timestamp,
    metadata := some { resultCode := peachResponse.result.code,
                       resultDescription := peachResponse.result.description },
    redirectUrl := peachResponse.redirectUrl,
    failureReason :=
      if mapPaymentStatus peachResponse.result.code = PaymentStatus.failed then
        some peachResponse.result.description
      else none }

/-- `PeachPaymentsGateway.mapStatusToPaymentResponse`: build the canonical
response from a status lookup; amount and method come from the wire response
(`parseFloat` on the amount string, brand mapping for the method). -/
def mapStatusToPaymentResponse (peachResponse : PeachStatusResponse) : PaymentResponse :=
  { id := peachResponse.id,
    status := mapPaymentStatus peachResponse.result.code,
    amount := { value := parseFloatCents peachResponse.amount,
                currency := peachResponse.currency },
    paymentMethod := mapPaymentBrandToMethod peachResponse.paymentBrand,
    reference := none,
    gatewayReference := some peachResponse.id,
    createdAt := peachResponse.timestamp,
    metadata := some { resultCode := peachResponse.result.code,
                       resultDescription := peachResponse.result.description },
    redirectUrl := none,
    failureReason :=
      if mapPaymentStatus peachResponse.result.code = PaymentStatus.failed then
        some peachResponse.result.description
      else none }

/-- `PeachPaymentsGateway.mapToRefundRequest`:
`request.amount?.value.toFixed(2) || '0.00'` and
`request.amount?.currency || 'ZAR'`. An absent amount yields the literals
`"0.00"`/`"ZAR"`; a present amount yields its fixed-2-decimal value (never the
empty string, so the `||` fallback cannot fire there) and its currency unless
that currency is the falsy empty string. -/
def mapToRefundRequest (cfg : PeachPaymentsConfig) (request : RefundRequest) : PeachRefundRequest :=
  { entityId := cfg.entityId,
    amount :=
      match request.amount with
      | some a => toFixed2 a.value
      | none => "0.00",
    currency :=
      match request.amount with
      | some a => if a.currency = "" then "ZAR" else a.currency
      | none => "ZAR",
    paymentType := "RF",
    testMode := if cfg.sandbox == some true then some "EXTERNAL" else none }

/-- `PeachPaymentsGateway.mapToRefundResponse`. -/
def mapToRefundResponse (peachResponse : PeachRefundResponse)
    (originalRequest : RefundRequest) : RefundResponse :=
  { id := peachResponse.id,
    paymentId := originalRequest.paymentId,
    status := mapPaymentStatus peachResponse.result.code,
    amount := { value := parseFloatCents peachResponse.amount,
                currency := peachResponse.currency },
    reason := originalRequest.reason,
    reference := originalRequest.reference,
    gatewayReference := some peachResponse.id,
    createdAt := peachResponse.timestamp,
    metadata := some { resultCode := peachResponse.result.code,
                       resultDescription := peachResponse.result.description } }

/-- `PeachPaymentsGateway.mapStatusToRefundResponse`: the status endpoint does
not echo the original payment id, so `paymentId` is the empty string. -/
def mapStatusToRefundResponse (peachResponse : PeachStatusResponse) : RefundResponse :=
  { id := peachResponse.id,
    paymentId := "",
    status := mapPaymentStatus peachResponse.result.code,
    amount := { value := parseFloatCents peachResponse.amount,
                currency := peachResponse.currency },
    reason := none,
    reference := none,
    gatewayReference := some peachResponse.id,
    createdAt := peachResponse.timestamp,
    metadata := some { resultCode := peachResponse.result.code,
                       resultDescription := peachResponse.result.description } }

/-- `PeachPaymentsGateway.getRefundStatus`: the transport outcome of the GET
is an input; a successful lookup is mapped through
`mapStatusToRefundResponse`, a failure is wrapped into a `RefundError`. -/
def PeachPaymentsGateway.getRefundStatus
    (transportResult : Except PLError PeachStatusResponse) : Except PLError RefundResponse :=
  match transportResult with
  | Except.ok response => Except.ok (mapStatusToRefundResponse response)
  | Except.error e =>
    Except.error (PLError.refundE ("Failed to get refund status: " ++ e.message))

/-! ## Orchestrator (`src/client.ts`) -/

/-- The registry view of a gateway: the read-only `name` and
`supportedMethods` the orchestrator consults. -/
structure GatewayInfo where
  name : String
  supportedMethods : List String
deriving Repr, DecidableEq

/-- `BasePaymentGateway.supportsPaymentMethod`:
`this.supportedMethods.includes(method)`. -/
def supportsPaymentMethod (gw : GatewayInfo) (method : String) : Bool :=
  gw.supportedMethods.contains method

/-- `PayLensConfig`: the map of gateway-specific configs (only the Peach slot
exists in the source). -/
structure PayLensConfig where
  peachPayments : Option PeachPaymentsConfig
deriving Repr, DecidableEq

/-- The orchestrator's state after construction: the name-keyed adapter
registry and the default gateway name. -/
structure PayLensState where
  gateways : List (String × GatewayInfo)
  defaultGateway : Option String
deriving Repr, DecidableEq

/-- `PayLens.isGatewayAvailable`: `this.gateways.has(gatewayName)`. -/
def PayLens.isGatewayAvailable (st : PayLensState) (gatewayName : String) : Bool :=
  (st.gateways.lookup gatewayName).isSome

/-- `PayLens.getAvailableGateways`: the registered names. -/
def PayLens.getAvailableGateways (st : PayLensState) : List String :=
  st.gateways.map (fun p => p.1)

/-- The constructor together with `PayLens.initializeGateways`: construct the
Peach adapter when its slot is present (registering it under `"peach"` and
making it the default), wrap an adapter-construction failure into a
`ConfigurationError` naming the `peachPayments` slot, and fail with a
`ConfigurationError` when zero gateways end up registered. The registered
entry carries the adapter's `name` and `supportedMethods`. -/
def PayLens.construct (config : PayLensConfig) : Except PLError PayLensState :=
  match config.peachPayments with
  | some peachConfig =>
    match (PeachPaymentsGateway.construct peachConfig).2 with
    | Except.ok gw =>
      let st : PayLensState :=
        { gateways := [("peach", { name := gw.name, supportedMethods := gw.supportedMethods })],
          defaultGateway := some "peach" }
      if st.gateways.length == 0 then
        Except.error (PLError.configuration
          "No payment gateways configured. Please provide at least one gateway configuration." none)
      else
        Except.ok st
    | Except.error e =>
      Except.error (PLError.configuration
        ("Failed to initialize Peach Payments gateway: " ++ e.message) (some "peachPayments"))
  | none =>
    Except.error (PLError.configuration
      "No payment gateways configured. Please provide at least one gateway configuration." none)

/-- Comma-join used in the unknown-gateway error message. -/
def joinComma : List String → String
  | [] => ""
  | [s] => s
  | s :: rest => s ++ ", " ++ joinComma rest

/-- `PayLens.getGateway`: resolve the explicit name (empty string is falsy)
or the default; report a `ConfigurationError` when neither resolves or the
resolved name is not registered. The registry key is returned with the info so
that dispatch to the resolved adapter can be modelled by name. -/
def PayLens.getGateway (st : PayLensState) (gatewayName : Option String) :
    Except PLError (String × GatewayInfo) :=
  let targetGateway :=
    match gatewayName with
    | some n => if n = "" then st.defaultGateway else some n
    | none => st.defaultGateway
  match targetGateway with
  | none =>
    Except.error (PLError.configuration "No gateway specified and no default gateway set" none)
  | some t =>
    match st.gateways.lookup t with
    | some gw => Except.ok (t, gw)
    | none =>
      Except.error (PLError.configuration
        ("Gateway " ++ t ++ " not found. Available gateways: " ++
          joinComma (PayLens.getAvailableGateways st)) none)

/-- `PayLens.processPayment`: validate the request shape (zod's aggregated
issue message abstracted), resolve the gateway, reject an unsupported payment
method with a `ValidationError` naming gateway and method, and only then
delegate to the resolved adapter. The adapters' `processPayment`
implementations are modelled as a name-indexed function `impl`, so a result
independent of `impl` was produced without invoking any adapter. -/
def PayLens.processPayment (st : PayLensState)
    (impl : String → PaymentRequest → Except PLError PaymentResponse)
    (request : PaymentRequest) (gatewayName : Option String) :
    Except PLError PaymentResponse :=
  if !(paymentRequestSchemaOk request) then
    Except.error (PLError.validation "Invalid payment request: schema validation failed")
  else
    match PayLens.getGateway st gatewayName with
    | Except.error e => Except.error e
    | Except.ok (registryName, gw) =>
      if !(supportsPaymentMethod gw request.paymentMethod) then
        Except.error (PLError.validation
          ("Gateway " ++ gw.name ++ " does not support payment method " ++ request.paymentMethod))
      else
        impl registryName request

/-! ## Concrete fixtures used to instantiate the theorems -/

/-- The valid sandbox config the repository's tests use. -/
def validPeachConfig : PeachPaymentsConfig :=
  { entityId := "test-entity", username := "test-user", password := "test-pass",
    environment := some "sandbox", timeout := none, retries := none,
    apiUrl := none, sandbox := none }

/-- A malformed config: empty `entityId`. -/
def emptyEntityConfig : PeachPaymentsConfig :=
  { entityId := "", username := "test-user", password := "test-pass",
    environment := some "sandbox", timeout := none, retries := none,
    apiUrl := none, sandbox := none }

/-- A legacy-shaped config: explicit `apiUrl`, boolean `sandbox`, no
`environment`. -/
def legacyPeachConfig : PeachPaymentsConfig :=
  { entityId := "test-entity", username := "test-user", password := "test-pass",
    environment := none, timeout := none, retries := none,
    apiUrl := some "https://legacy.example.com", sandbox := some true }

/-- The spec's example payment request: 100.00 ZAR by card with valid card
details. -/
def samplePaymentRequest : PaymentRequest :=
  { amount := { value := 10000, currency := "ZAR" },
    customer := { id := none, email := "test@example.com", firstName := none,
                  lastName := none, phone := none },
    paymentMethod := "card",
    reference := some "ref-1",
    description := none, metadata := none, billingAddress := none,
    cardDetails := some { number := "4111111111111111", expiryMonth := "12",
                          expiryYear := "25", cvv := "123", holderName := none },
    returnUrl := none, webhookUrl := none }

/-- A gateway payment response with the given result code. -/
def samplePeachResponse (code description : String) : PeachPaymentResponse :=
  { id := "pay-123", paymentType := "DB", paymentBrand := some "VISA",
    amount := "100.00", currency := "ZAR",
    result := { code := code, description := description },
    buildNumber := "1", timestamp := "2024-01-01T00:00:00Z", ndc := "ndc-1",
    redirectUrl := none }

/-- A gateway status response with the given result code. -/
def samplePeachStatusResponse (code description : String) : PeachStatusResponse :=
  { id := "pay-123", paymentType := "DB", paymentBrand := some "VISA",
    amount := "100.00", currency := "ZAR",
    result := { code := code, description := description },
    buildNumber := "1", timestamp := "2024-01-01T00:00:00Z", ndc := "ndc-1" }

/-- A refund request with no amount (full refund). -/
def fullRefundRequest : RefundRequest :=
  { paymentId := "pay-123", amount := none, reason := none, reference := none }

/-- A refund request with an explicit 50.00 ZAR amount. -/
def partialRefundRequest : RefundRequest :=
  { paymentId := "pay-123", amount := some { value := 5000, currency := "ZAR" },
    reason := some "Customer request", reference := none }

/-- The sample request with a payment method outside the Peach adapter's
supported set. -/
def cryptoPaymentRequest : PaymentRequest :=
  { samplePaymentRequest with paymentMethod := "cryptocurrency" }

/-- The registry state after constructing the orchestrator from the valid
Peach fixture. -/
def peachRegistryState : PayLensState :=
  { gateways := [("peach", { name := "PeachPayments",
                             supportedMethods := ["card", "eft", "mobile_wallet"] })],
    defaultGateway := some "peach" }

/-! ## Theorems -/

/-- Helper: a code in the success bucket classifies as completed. -/
theorem mapPaymentStatus_of_success {c : String}
    (h : c ∈ PEACH_STATUS_CODES.SUCCESS_CODES) :
    mapPaymentStatus c = PaymentStatus.completed := by
  simp [mapPaymentStatus, h]

/-- C1: every success code maps to completed, every pending code to
processing, every rejected or error code to failed, every code outside the
four buckets to pending, and the four buckets are pairwise disjoint. -/
theorem C1_mapPaymentStatus_buckets :
    (∀ c ∈ PEACH_STATUS_CODES.SUCCESS_CODES, mapPaymentStatus c = PaymentStatus.completed) ∧
    (∀ c ∈ PEACH_STATUS_CODES.PENDING_CODES, mapPaymentStatus c = PaymentStatus.processing) ∧
    (∀ c ∈ PEACH_STATUS_CODES.REJECTED_CODES, mapPaymentStatus c = PaymentStatus.failed) ∧
    (∀ c ∈ PEACH_STATUS_CODES.ERROR_CODES, mapPaymentStatus c = PaymentStatus.failed) ∧
    (∀ c : String, c ∉ PEACH_STATUS_CODES.SUCCESS_CODES →
      c ∉ PEACH_STATUS_CODES.PENDING_CODES →
      c ∉ PEACH_STATUS_CODES.REJECTED_CODES →
      c ∉ PEACH_STATUS_CODES.ERROR_CODES →
      mapPaymentStatus c = PaymentStatus.pending) ∧
    (∀ c ∈ PEACH_STATUS_CODES.SUCCESS_CODES, c ∉ PEACH_STATUS_CODES.PENDING_CODES) ∧
    (∀ c ∈ PEACH_STATUS_CODES.SUCCESS_CODES, c ∉ PEACH_STATUS_CODES.REJECTED_CODES) ∧
    (∀ c ∈ PEACH_STATUS_CODES.SUCCESS_CODES, c ∉ PEACH_STATUS_CODES.ERROR_CODES) ∧
    (∀ c ∈ PEACH_STATUS_CODES.PENDING_CODES, c ∉ PEACH_STATUS_CODES.REJECTED_CODES) ∧
    (∀ c ∈ PEACH_STATUS_CODES.PENDING_CODES, c ∉ PEACH_STATUS_CODES.ERROR_CODES) ∧
    (∀ c ∈ PEACH_STATUS_CODES.REJECTED_CODES, c ∉ PEACH_STATUS_CODES.ERROR_CODES) := by
  refine ⟨?_, ?_, ?_, ?_, ?_, ?_, ?_, ?_, ?_, ?_, ?_⟩
  · intro c h
    simp [mapPaymentStatus, h]
  · intro c h
    have hns := (by decide :
      ∀ x ∈ PEACH_STATUS_CODES.PENDING_CODES, x ∉ PEACH_STATUS_CODES.SUCCESS_CODES) c h
    simp [mapPaymentStatus, h, hns]
  · intro c h
    have hns := (by decide :
      ∀ x ∈ PEACH_STATUS_CODES.REJECTED_CODES, x ∉ PEACH_STATUS_CODES.SUCCESS_CODES) c h
    have hnp := (by decide :
      ∀ x ∈ PEACH_STATUS_CODES.REJECTED_CODES, x ∉ PEACH_STATUS_CODES.PENDING_CODES) c h
    simp [mapPaymentStatus, h, hns, hnp]
  · intro c h
    have hns := (by decide :
      ∀ x ∈ PEACH_STATUS_CODES.ERROR_CODES, x ∉ PEACH_STATUS_CODES.SUCCESS_CODES) c h
    have hnp := (by decide :
      ∀ x ∈ PEACH_STATUS_CODES.ERROR_CODES, x ∉ PEACH_STATUS_CODES.PENDING_CODES) c h
    have hnr := (by decide :
      ∀ x ∈ PEACH_STATUS_CODES.ERROR_CODES, x ∉ PEACH_STATUS_CODES.REJECTED_CODES) c h
    simp [mapPaymentStatus, h, hns, hnp, hnr]
  · intro c h1 h2 h3 h4
    simp [mapPaymentStatus, h1, h2, h3, h4]
  · decide
  · decide
  · decide
  · decide
  · decide
  · decide

/-- C1 witness: the theorem instantiated at one code of each kind. -/
theorem C1_mapPaymentStatus_buckets_witness :
    mapPaymentStatus "000.000.000" = PaymentStatus.completed ∧
    mapPaymentStatus "000.200.000" = PaymentStatus.processing ∧
    mapPaymentStatus "000.400.010" = PaymentStatus.failed ∧
    mapPaymentStatus "900.400.500" = PaymentStatus.failed ∧
    mapPaymentStatus "999.999.999" = PaymentStatus.pending :=
  ⟨C1_mapPaymentStatus_buckets.1 "000.000.000" (by decide),
   C1_mapPaymentStatus_buckets.2.1 "000.200.000" (by decide),
   C1_mapPaymentStatus_buckets.2.2.1 "000.400.010" (by decide),
   C1_mapPaymentStatus_buckets.2.2.2.1 "900.400.500" (by decide),
   C1_mapPaymentStatus_buckets.2.2.2.2.1 "999.999.999"
     (by decide) (by decide) (by decide) (by decide)⟩

/-- Helper: a successful attempt returns its value with no delays. -/
theorem executeWithRetry_ok {α : Type} (R : Nat) (op : Nat → Except TransportError α)
    (n : Nat) (v : α) (h : op n = Except.ok v) :
    executeWithRetry R op n = (Except.ok v, []) := by
  rw [executeWithRetry, h]

/-- Helper: a retryable failure below the budget recurses after one backoff
delay. -/
theorem executeWithRetry_retry {α : Type} (R : Nat) (op : Nat → Except TransportError α)
    (n : Nat) (e : TransportError) (h : op n = Except.error e)
    (h1 : n < R) (h2 : shouldRetry e = true) :
    executeWithRetry R op n =
      ((executeWithRetry R op (n + 1)).1,
        calculateRetryDelay n :: (executeWithRetry R op (n + 1)).2) := by
  rw [executeWithRetry, h]
  simp [h1, h2]

/-- Helper: a failure that is out of budget or not retryable is rethrown with
no delay. -/
theorem executeWithRetry_noRetry {α : Type} (R : Nat) (op : Nat → Except TransportError α)
    (n : Nat) (e : TransportError) (h : op n = Except.error e)
    (hc : ¬(n < R ∧ shouldRetry e = true)) :
    executeWithRetry R op n = (Except.error e, []) := by
  rw [executeWithRetry, h]
  simp [hc]

/-- Helper: `shouldRetry` on a `NetworkError` holds exactly for an absent
status or a status at least 500. -/
theorem shouldRetry_network_iff (st : Option Nat) :
    shouldRetry (TransportError.network st) = true ↔
      (st = none ∨ ∃ s, st = some s ∧ 500 ≤ s) := by
  cases st with
  | none => simp [shouldRetry]
  | some s => simp [shouldRetry]

/-- C2: a failed attempt is retried (some backoff delay is performed) iff the
attempt number is below the retry budget and the failure carries no HTTP
status or one at least 500; a successful attempt returns immediately with no
delay; each retry recurses after exactly `min(1000 * 2^(n-1), 10000)` ms; the
500-500-success scenario returns the success after delays 1000 and 2000; and
a 404 failure is rethrown immediately with no retry. -/
theorem C2_executeWithRetry_policy :
    (∀ (R : Nat) (op : Nat → Except TransportError Nat) (n : Nat) (st : Option Nat),
      op n = Except.error (TransportError.network st) →
      ((executeWithRetry R op n).2 ≠ [] ↔
        (n < R ∧ (st = none ∨ ∃ s, st = some s ∧ 500 ≤ s)))) ∧
    (∀ (R : Nat) (op : Nat → Except TransportError Nat) (n : Nat) (v : Nat),
      op n = Except.ok v → executeWithRetry R op n = (Except.ok v, [])) ∧
    (∀ (R : Nat) (op : Nat → Except TransportError Nat) (n : Nat) (e : TransportError),
      op n = Except.error e → n < R → shouldRetry e = true →
      executeWithRetry R op n =
        ((executeWithRetry R op (n + 1)).1,
          min (1000 * 2 ^ (n - 1)) 10000 :: (executeWithRetry R op (n + 1)).2)) ∧
    executeWithRetry 3 retryScenarioOp 1 = (Except.ok 42, [1000, 2000]) ∧
    executeWithRetry 3 (fun _ => (Except.error (TransportError.network (some 404)) :
        Except TransportError Nat)) 1 =
      (Except.error (TransportError.network (some 404)), []) := by
  refine ⟨?_, ?_, ?_, ?_, ?_⟩
  · intro R op n st h
    by_cases hc : n < R ∧ shouldRetry (TransportError.network st) = true
    · rw [executeWithRetry_retry R op n _ h hc.1 hc.2]
      simp only [ne_eq, List.cons_ne_nil, not_false_iff, true_iff]
      exact ⟨hc.1, (shouldRetry_network_iff st).mp hc.2⟩
    · rw [executeWithRetry_noRetry R op n _ h hc]
      simp only [ne_eq, not_true, false_iff]
      intro hcontra
      exact hc ⟨hcontra.1, (shouldRetry_network_iff st).mpr hcontra.2⟩
  · exact fun R op n v h => executeWithRetry_ok R op n v h
  · intro R op n e h h1 h2
    rw [executeWithRetry_retry R op n e h h1 h2]
    rfl
  · have h3 : executeWithRetry 3 retryScenarioOp 3 = (Except.ok 42, []) :=
      executeWithRetry_ok 3 retryScenarioOp 3 42 rfl
    have h2 := executeWithRetry_retry 3 retryScenarioOp 2
      (TransportError.network (some 500)) rfl (by decide) (by decide)
    have h1 := executeWithRetry_retry 3 retryScenarioOp 1
      (TransportError.network (some 500)) rfl (by decide) (by decide)
    rw [h1, h2, h3]
    rfl
  · exact executeWithRetry_noRetry 3 _ 1 (TransportError.network (some 404))
      rfl (by decide)

/-- C2 witness: the policy instantiated at concrete inputs — the retried-iff
characterization at a 404 failure on the first attempt, the success case, and
the recursion shape at a 500 failure. -/
theorem C2_executeWithRetry_policy_witness :
    ((executeWithRetry 3 (fun _ => (Except.error (TransportError.network (some 404)) :
        Except TransportError Nat)) 1).2 ≠ [] ↔
      (1 < 3 ∧ ((some 404 : Option Nat) = none ∨
        ∃ s, (some 404 : Option Nat) = some s ∧ 500 ≤ s))) ∧
    executeWithRetry 3 retryScenarioOp 3 = (Except.ok 42, []) ∧
    executeWithRetry 3 retryScenarioOp 1 =
      ((executeWithRetry 3 retryScenarioOp 2).1,
        min (1000 * 2 ^ (1 - 1)) 10000 :: (executeWithRetry 3 retryScenarioOp 2).2) :=
  ⟨C2_executeWithRetry_policy.1 3 _ 1 (some 404) rfl,
   C2_executeWithRetry_policy.2.1 3 retryScenarioOp 3 42 rfl,
   C2_executeWithRetry_policy.2.2.1 3 retryScenarioOp 1
     (TransportError.network (some 500)) rfl (by decide) (by decide)⟩

/-- Helper: normalization never changes the credential and legacy fields,
only possibly `environment`. -/
theorem normalizeConfig_preserves (c : PeachPaymentsConfig) :
    (PeachPaymentsGateway.normalizeConfig c).entityId = c.entityId ∧
    (PeachPaymentsGateway.normalizeConfig c).username = c.username ∧
    (PeachPaymentsGateway.normalizeConfig c).password = c.password ∧
    (PeachPaymentsGateway.normalizeConfig c).apiUrl = c.apiUrl ∧
    (PeachPaymentsGateway.normalizeConfig c).sandbox = c.sandbox ∧
    (PeachPaymentsGateway.normalizeConfig c).timeout = c.timeout ∧
    (PeachPaymentsGateway.normalizeConfig c).retries = c.retries := by
  unfold PeachPaymentsGateway.normalizeConfig
  split <;> simp

/-- Helper: a truthy `apiUrl` decides the endpoint. -/
theorem getApiUrlForConfig_of_apiUrl (c : PeachPaymentsConfig) (u : String)
    (hu : c.apiUrl = some u) (hne : u ≠ "") :
    PeachPaymentsGateway.getApiUrlForConfig c = u := by
  unfold PeachPaymentsGateway.getApiUrlForConfig
  simp [hu, strTruthy, hne]

/-- Helper: a successfully constructed adapter's transport is bound to the
endpoint resolved from the normalized config. -/
theorem construct_ok_baseURL (c : PeachPaymentsConfig) (g : PeachGatewayM)
    (hg : (PeachPaymentsGateway.construct c).2 = Except.ok g) :
    g.httpClient.baseURL =
      PeachPaymentsGateway.getApiUrlForConfig (PeachPaymentsGateway.normalizeConfig c) := by
  simp only [PeachPaymentsGateway.construct] at hg
  split at hg
  · have hgg := Except.ok.inj hg
    rw [← hgg]
  · exact absurd hg (by simp)

/-- C3: a legacy-shaped config (truthy `apiUrl`, defined `sandbox`, no
`environment`) is normalized to `environment = "sandbox"` when the flag is
true and `"production"` when it is false; its resolved endpoint is the given
`apiUrl`, not the environment table entry; whenever `apiUrl` is present and
truthy it decides the endpoint even when `environment` is also present; and a
successfully constructed adapter's transport is bound to that `apiUrl`. -/
theorem C3_legacy_config_normalization :
    (∀ (c : PeachPaymentsConfig) (u : String) (b : Bool),
      c.apiUrl = some u → u ≠ "" → c.sandbox = some b → c.environment = none →
      ((PeachPaymentsGateway.normalizeConfig c).environment =
          some (if b then "sandbox" else "production") ∧
        PeachPaymentsGateway.getApiUrlForConfig (PeachPaymentsGateway.normalizeConfig c) = u)) ∧
    (∀ (c : PeachPaymentsConfig) (u : String),
      c.apiUrl = some u → u ≠ "" → PeachPaymentsGateway.getApiUrlForConfig c = u) ∧
    (∀ (c : PeachPaymentsConfig) (u : String) (g : PeachGatewayM),
      c.apiUrl = some u → u ≠ "" →
      (PeachPaymentsGateway.construct c).2 = Except.ok g →
      g.httpClient.baseURL = u) := by
  refine ⟨?_, ?_, ?_⟩
  · intro c u b hu hne hsb henv
    constructor
    · unfold PeachPaymentsGateway.normalizeConfig
      rw [if_pos]
      · simp [hsb]
      · simp [hu, hsb, henv, strTruthy, hne]
    · exact getApiUrlForConfig_of_apiUrl _ u
        ((normalizeConfig_preserves c).2.2.2.1.trans hu) hne
  · intro c u hu hne
    exact getApiUrlForConfig_of_apiUrl c u hu hne
  · intro c u g hu hne hg
    rw [construct_ok_baseURL c g hg]
    exact getApiUrlForConfig_of_apiUrl _ u
      ((normalizeConfig_preserves c).2.2.2.1.trans hu) hne

/-- C3 witness: the theorem instantiated at the legacy fixture. -/
theorem C3_legacy_config_normalization_witness :
    (PeachPaymentsGateway.normalizeConfig legacyPeachConfig).environment =
        some (if true then "sandbox" else "production") ∧
    PeachPaymentsGateway.getApiUrlForConfig (PeachPaymentsGateway.normalizeConfig legacyPeachConfig) =
      "https://legacy.example.com" :=
  C3_legacy_config_normalization.1 legacyPeachConfig "https://legacy.example.com" true
    rfl (by decide) rfl rfl

/-- C4: orchestrator construction with zero gateway configs throws
`ConfigurationError`; with exactly the Peach config present and its adapter
constructing successfully, the gateway is registered under `"peach"`, becomes
the default, and `isGatewayAvailable` is true for `"peach"` and false for
every other name; an adapter-construction failure is wrapped into a
`ConfigurationError` naming the `peachPayments` slot. -/
theorem C4_orchestrator_initialization :
    (PayLens.construct { peachPayments := none } =
      Except.error (PLError.configuration
        "No payment gateways configured. Please provide at least one gateway configuration."
        none)) ∧
    (∀ (pc : PeachPaymentsConfig) (gw : PeachGatewayM),
      (PeachPaymentsGateway.construct pc).2 = Except.ok gw →
      (PayLens.construct { peachPayments := some pc } =
          Except.ok
            { gateways := [("peach", { name := gw.name, supportedMethods := gw.supportedMethods })],
              defaultGateway := some "peach" } ∧
        PayLens.isGatewayAvailable
          { gateways := [("peach", { name := gw.name, supportedMethods := gw.supportedMethods })],
            defaultGateway := some "peach" } "peach" = true ∧
        (∀ n : String, n ≠ "peach" →
          PayLens.isGatewayAvailable
            { gateways := [("peach", { name := gw.name, supportedMethods := gw.supportedMethods })],
              defaultGateway := some "peach" } n = false))) ∧
    (∀ (pc : PeachPaymentsConfig) (e : PLError),
      (PeachPaymentsGateway.construct pc).2 = Except.error e →
      PayLens.construct { peachPayments := some pc } =
        Except.error (PLError.configuration
          ("Failed to initialize Peach Payments gateway: " ++ e.message)
          (some "peachPayments"))) := by
  refine ⟨rfl, ?_, ?_⟩
  · intro pc gw h
    refine ⟨?_, ?_, ?_⟩
    · simp [PayLens.construct, h]
    · simp [PayLens.isGatewayAvailable, List.lookup]
    · intro n hn
      have hb : (n == "peach") = false := by simp [hn]
      simp [PayLens.isGatewayAvailable, List.lookup, hb]
  · intro pc e h
    simp [PayLens.construct, h]

/-- C4 witness: construction from the valid fixture registers `peach` as
available default and an unknown name is unavailable; the empty-entity fixture
fails adapter construction and is wrapped naming the slot. -/
theorem C4_orchestrator_initialization_witness :
    (PayLens.construct { peachPayments := some validPeachConfig } =
      Except.ok
        { gateways := [("peach", { name := "PeachPayments",
                                   supportedMethods := ["card", "eft", "mobile_wallet"] })],
          defaultGateway := some "peach" } ∧
      PayLens.isGatewayAvailable
        { gateways := [("peach", { name := "PeachPayments",
                                   supportedMethods := ["card", "eft", "mobile_wallet"] })],
          defaultGateway := some "peach" } "payfast" = false) ∧
    PayLens.construct { peachPayments := some emptyEntityConfig } =
      Except.error (PLError.configuration
        ("Failed to initialize Peach Payments gateway: " ++
          (PLError.validation
            "Invalid Peach Payments configuration: schema validation failed").message)
        (some "peachPayments")) :=
  ⟨⟨(C4_orchestrator_initialization.2.1 validPeachConfig
      { name := "PeachPayments", supportedMethods := ["card", "eft", "mobile_wallet"],
        peachConfig := validPeachConfig,
        baseConfig := { apiUrl := "https://testapi-v2.peachpayments.com", sandbox := true,
                        timeout := none, retries := none },
        httpClient := { baseURL := "https://testapi-v2.peachpayments.com", timeout := none,
                        retries := none, authCredentials := "test-user:test-pass" } } rfl).1,
    (C4_orchestrator_initialization.2.1 validPeachConfig
      { name := "PeachPayments", supportedMethods := ["card", "eft", "mobile_wallet"],
        peachConfig := validPeachConfig,
        baseConfig := { apiUrl := "https://testapi-v2.peachpayments.com", sandbox := true,
                        timeout := none, retries := none },
        httpClient := { baseURL := "https://testapi-v2.peachpayments.com", timeout := none,
                        retries := none, authCredentials := "test-user:test-pass" } } rfl).2.2
      "payfast" (by decide)⟩,
   C4_orchestrator_initialization.2.2 emptyEntityConfig
     (PLError.validation "Invalid Peach Payments configuration: schema validation failed") rfl⟩

/-- C8: for every config malformed by an empty `entityId`, `username` or
`password`, or an `environment` outside the enum after legacy normalization,
adapter construction throws a `ValidationError`, and the trace of constructed
`HttpClient` transports is empty. -/
theorem C8_construct_rejects_malformed_config :
    ∀ c : PeachPaymentsConfig,
      (c.entityId = "" ∨ c.username = "" ∨ c.password = "" ∨
        envInEnum (PeachPaymentsGateway.normalizeConfig c).environment = false) →
      ((PeachPaymentsGateway.construct c).1 = [] ∧
        ∃ msg, (PeachPaymentsGateway.construct c).2 = Except.error (PLError.validation msg)) := by
  intro c h
  have hp := normalizeConfig_preserves c
  have hfail : PeachPaymentsConfigSchemaOk (PeachPaymentsGateway.normalizeConfig c) = false := by
    rcases h with h | h | h | h
    · simp [PeachPaymentsConfigSchemaOk, hp.1, h]
    · simp [PeachPaymentsConfigSchemaOk, hp.2.1, h]
    · simp [PeachPaymentsConfigSchemaOk, hp.2.2.1, h]
    · simp [PeachPaymentsConfigSchemaOk, h]
  constructor
  · simp [PeachPaymentsGateway.construct, hfail]
  · exact ⟨"Invalid Peach Payments configuration: schema validation failed",
      by simp [PeachPaymentsGateway.construct, hfail]⟩

/-- C8 witness: the empty-entity fixture constructs no transport and throws a
`ValidationError`. -/
theorem C8_construct_rejects_malformed_config_witness :
    (PeachPaymentsGateway.construct emptyEntityConfig).1 = [] ∧
    ∃ msg, (PeachPaymentsGateway.construct emptyEntityConfig).2 =
      Except.error (PLError.validation msg) :=
  C8_construct_rejects_malformed_config emptyEntityConfig (Or.inl rfl)

/-- C5: for every valid payment request whose method the resolved gateway does
not support, the orchestrator's `processPayment` returns a `ValidationError`
naming the gateway and the method, and it does so for every possible adapter
behaviour `impl` — so no adapter (and hence no network call) is ever invoked;
and the base class's `supportsPaymentMethod` holds exactly for members of the
static `supportedMethods` list. -/
theorem C5_processPayment_unsupported_method :
    (∀ (st : PayLensState)
       (impl : String → PaymentRequest → Except PLError PaymentResponse)
       (request : PaymentRequest) (gatewayName : Option String)
       (registryName : String) (gw : GatewayInfo),
      paymentRequestSchemaOk request = true →
      PayLens.getGateway st gatewayName = Except.ok (registryName, gw) →
      supportsPaymentMethod gw request.paymentMethod = false →
      PayLens.processPayment st impl request gatewayName =
        Except.error (PLError.validation
          ("Gateway " ++ gw.name ++ " does not support payment method " ++
            request.paymentMethod))) ∧
    (∀ (gw : GatewayInfo) (m : String),
      supportsPaymentMethod gw m = true ↔ m ∈ gw.supportedMethods) := by
  constructor
  · intro st impl request gatewayName registryName gw hvalid hgw hsupp
    simp [PayLens.processPayment, hvalid, hgw, hsupp]
  · intro gw m
    simp [supportsPaymentMethod]

/-- C5 witness: the valid crypto-method request against the Peach registry is
rejected naming gateway and method, for an arbitrary concrete adapter
behaviour; and membership both ways at concrete methods. -/
theorem C5_processPayment_unsupported_method_witness :
    PayLens.processPayment peachRegistryState
        (fun _ _ => Except.error (PLError.paymentE "adapter reached")) cryptoPaymentRequest none =
      Except.error (PLError.validation
        ("Gateway " ++ "PeachPayments" ++ " does not support payment method " ++
          "cryptocurrency")) ∧
    (supportsPaymentMethod
        ({ name := "PeachPayments",
           supportedMethods := ["card", "eft", "mobile_wallet"] } : GatewayInfo) "card" = true ↔
      "card" ∈ ["card", "eft", "mobile_wallet"]) :=
  ⟨C5_processPayment_unsupported_method.1 peachRegistryState _ cryptoPaymentRequest none
      "peach"
      ({ name := "PeachPayments", supportedMethods := ["card", "eft", "mobile_wallet"] } :
        GatewayInfo)
      (by decide) rfl rfl,
   C5_processPayment_unsupported_method.2
     ({ name := "PeachPayments", supportedMethods := ["card", "eft", "mobile_wallet"] } :
       GatewayInfo) "card"⟩

/-- C6: in both the payment mapping and the status-lookup mapping,
`failureReason` equals the gateway's result description exactly when the
classified status is failed, and is absent for every other status. -/
theorem C6_failureReason_iff_failed :
    ∀ (resp : PeachPaymentResponse) (sresp : PeachStatusResponse) (req : PaymentRequest),
      ((mapToPaymentResponse resp req).failureReason = some resp.result.description ↔
        (mapToPaymentResponse resp req).status = PaymentStatus.failed) ∧
      ((mapToPaymentResponse resp req).status ≠ PaymentStatus.failed →
        (mapToPaymentResponse resp req).failureReason = none) ∧
      ((mapStatusToPaymentResponse sresp).failureReason = some sresp.result.description ↔
        (mapStatusToPaymentResponse sresp).status = PaymentStatus.failed) ∧
      ((mapStatusToPaymentResponse sresp).status ≠ PaymentStatus.failed →
        (mapStatusToPaymentResponse sresp).failureReason = none) := by
  intro resp sresp req
  refine ⟨?_, ?_, ?_, ?_⟩
  · by_cases hf : mapPaymentStatus resp.result.code = PaymentStatus.failed <;>
      simp [mapToPaymentResponse, hf]
  · intro hne
    simp only [mapToPaymentResponse] at hne ⊢
    simp [hne]
  · by_cases hf : mapPaymentStatus sresp.result.code = PaymentStatus.failed <;>
      simp [mapStatusToPaymentResponse, hf]
  · intro hne
    simp only [mapStatusToPaymentResponse] at hne ⊢
    simp [hne]

/-- C6 witness: the spec's example — result code `000.400.010` yields failed
with the description as `failureReason`; `000.000.000` yields a non-failed
status with no `failureReason`. -/
theorem C6_failureReason_iff_failed_witness :
    (mapToPaymentResponse (samplePeachResponse "000.400.010" "Invalid card number")
        samplePaymentRequest).failureReason = some "Invalid card number" ∧
    (mapToPaymentResponse (samplePeachResponse "000.000.000" "Transaction succeeded")
        samplePaymentRequest).failureReason = none :=
  ⟨(C6_failureReason_iff_failed (samplePeachResponse "000.400.010" "Invalid card number")
      (samplePeachStatusResponse "000.400.010" "Invalid card number")
      samplePaymentRequest).1.mpr (by decide),
   (C6_failureReason_iff_failed (samplePeachResponse "000.000.000" "Transaction succeeded")
      (samplePeachStatusResponse "000.000.000" "Transaction succeeded")
      samplePaymentRequest).2.1 (by decide)⟩

/-- C7: mapping a canonical request to the wire format serializes the
request's amount (fixed two decimals, currency forwarded), and mapping any
gateway response bearing a success-bucket result code back yields a canonical
response with the request's amount and payment method and status completed. -/
theorem C7_round_trip_success :
    ∀ (cfg : PeachPaymentsConfig) (genRef : String) (req : PaymentRequest)
      (resp : PeachPaymentResponse),
      resp.result.code ∈ PEACH_STATUS_CODES.SUCCESS_CODES →
      ((mapToPaymentRequest cfg genRef req).amount = toFixed2 req.amount.value ∧
        (mapToPaymentRequest cfg genRef req).currency = req.amount.currency ∧
        (mapToPaymentResponse resp req).amount = req.amount ∧
        (mapToPaymentResponse resp req).paymentMethod = req.paymentMethod ∧
        (mapToPaymentResponse resp req).status = PaymentStatus.completed) := by
  intro cfg genRef req resp h
  refine ⟨rfl, rfl, rfl, rfl, ?_⟩
  simp only [mapToPaymentResponse]
  exact mapPaymentStatus_of_success h

/-- C7 witness: the round trip at the sample fixtures with result code
`000.000.000`. -/
theorem C7_round_trip_success_witness :
    (mapToPaymentRequest validPeachConfig "gen-1" samplePaymentRequest).amount =
        toFixed2 samplePaymentRequest.amount.value ∧
    (mapToPaymentRequest validPeachConfig "gen-1" samplePaymentRequest).currency =
        samplePaymentRequest.amount.currency ∧
    (mapToPaymentResponse (samplePeachResponse "000.000.000" "Transaction succeeded")
        samplePaymentRequest).amount = samplePaymentRequest.amount ∧
    (mapToPaymentResponse (samplePeachResponse "000.000.000" "Transaction succeeded")
        samplePaymentRequest).paymentMethod = samplePaymentRequest.paymentMethod ∧
    (mapToPaymentResponse (samplePeachResponse "000.000.000" "Transaction succeeded")
        samplePaymentRequest).status = PaymentStatus.completed :=
  C7_round_trip_success validPeachConfig "gen-1" samplePaymentRequest
    (samplePeachResponse "000.000.000" "Transaction succeeded") (by decide)

/-- C9: a successful refund-status lookup maps straight through
`mapStatusToRefundResponse`, whose `paymentId` is always the empty string —
the original payment id is not recoverable from the status endpoint. -/
theorem C9_refund_status_empty_paymentId :
    ∀ resp : PeachStatusResponse,
      PeachPaymentsGateway.getRefundStatus (Except.ok resp) =
        Except.ok (mapStatusToRefundResponse resp) ∧
      (mapStatusToRefundResponse resp).paymentId = "" := by
  intro resp
  exact ⟨rfl, rfl⟩

/-- C10: a refund request with no amount produces the literal wire amount
`"0.00"` and currency `"ZAR"`; with an amount whose currency is a canonical
currency, the wire amount is the value at two decimals and the currency is
forwarded unchanged. -/
theorem C10_refund_request_amount_mapping :
    ∀ (cfg : PeachPaymentsConfig) (req : RefundRequest),
      (req.amount = none →
        ((mapToRefundRequest cfg req).amount = "0.00" ∧
          (mapToRefundRequest cfg req).currency = "ZAR")) ∧
      (∀ a : Amount, req.amount = some a → a.currency ∈ currencyValues →
        ((mapToRefundRequest cfg req).amount = toFixed2 a.value ∧
          (mapToRefundRequest cfg req).currency = a.currency)) := by
  intro cfg req
  constructor
  · intro h
    exact ⟨by simp [mapToRefundRequest, h], by simp [mapToRefundRequest, h]⟩
  · intro a ha hcur
    have hne : a.currency ≠ "" := by
      intro hcontra
      rw [hcontra] at hcur
      revert hcur
      decide
    exact ⟨by simp [mapToRefundRequest, ha], by simp [mapToRefundRequest, ha, hne]⟩

/-- C10 witness: the full-refund fixture carries `"0.00"`/`"ZAR"`; the
partial-refund fixture carries its own formatted amount and currency. -/
theorem C10_refund_request_amount_mapping_witness :
    ((mapToRefundRequest validPeachConfig fullRefundRequest).amount = "0.00" ∧
      (mapToRefundRequest validPeachConfig fullRefundRequest).currency = "ZAR") ∧
    ((mapToRefundRequest validPeachConfig partialRefundRequest).amount =
        toFixed2 5000 ∧
      (mapToRefundRequest validPeachConfig partialRefundRequest).currency = "ZAR") :=
  ⟨(C10_refund_request_amount_mapping validPeachConfig fullRefundRequest).1 rfl,
   (C10_refund_request_amount_mapping validPeachConfig partialRefundRequest).2
     { value := 5000, currency := "ZAR" } rfl (by decide)⟩
